import Mathlib

/-!
Verification of the SparkApplication controller (pkg/controller/controller.go)
against its natural-language specification.

The Go code is shallowly embedded: enum-like string constants become
inductives, structs become structures, the Go map `executorState` (which can
be nil) becomes `Option` of an association list, in-place mutation closures
become pure functions `SparkApplication → SparkApplication`, and the remote
versioned-store client (`client.Update` / `client.Get`) becomes an oracle
indexed by the number of calls made so far, so that call counts and
time-varying responses are expressible.  Error values carry a kind so that
"no error kind is treated differently" is expressible; the embedding, like
the Go code's `if err != nil`, never inspects the kind.
-/

namespace SparkOperator

/-- Application states (`v1alpha1.ApplicationStateType`, a string type in Go).
`EmptyState` stands for the empty string `""`, which is both the zero value
and the default returned by `driverPodPhaseToApplicationState`. -/
inductive ApplicationStateType
  | NewState
  | SubmittedState
  | RunningState
  | CompletedState
  | FailedState
  | FailedSubmissionState
  | EmptyState
  deriving DecidableEq, Repr

/-- Executor states (`v1alpha1.ExecutorState`). -/
inductive ExecutorState
  | ExecutorPendingState
  | ExecutorRunningState
  | ExecutorCompletedState
  | ExecutorFailedState
  | ExecutorUnknownState
  deriving DecidableEq, Repr

/-- Restart policies (`v1alpha1.RestartPolicy`). -/
inductive RestartPolicy
  | Never
  | OnFailure
  | Always
  | Undefined
  deriving DecidableEq, Repr

/-- Pod phases (`apiv1.PodPhase`).  `PodOther` stands for every phase not
named in `driverPodPhaseToApplicationState`'s switch (e.g. `Unknown`). -/
inductive PodPhase
  | PodPending
  | PodRunning
  | PodSucceeded
  | PodFailed
  | PodOther
  deriving DecidableEq, Repr

/-- `v1alpha1.ApplicationState`: pair of state and error message. -/
structure ApplicationState where
  state : ApplicationStateType
  errorMessage : String
  deriving DecidableEq, Repr

/-- `v1alpha1.DriverInfo`. -/
structure DriverInfo where
  podName : String
  webUIAddress : String
  webUIPort : Nat
  deriving DecidableEq, Repr

/-- `v1alpha1.SparkApplicationStatus`.  `executorState` is a Go map that can
be nil: `none` models the nil map, `some l` a (possibly empty) allocated map
represented as an association list.  Times are modelled as `Nat` with `0`
playing the role of `time.IsZero`. -/
structure SparkApplicationStatus where
  appID : String
  appState : ApplicationState
  driverInfo : DriverInfo
  executorState : Option (List (String × ExecutorState))
  submissionTime : Nat
  completionTime : Nat
  deriving DecidableEq, Repr

/-- The fields of `v1alpha1.SparkApplicationSpec` the controller reads. -/
structure SparkApplicationSpec where
  restartPolicy : RestartPolicy
  submissionByUser : Bool
  deriving DecidableEq, Repr

/-- `v1alpha1.SparkApplication`: identity, spec and status. -/
structure SparkApplication where
  name : String
  namesp : String
  uid : String
  spec : SparkApplicationSpec
  status : SparkApplicationStatus
  deriving DecidableEq, Repr

/-- The zero value `v1alpha1.SparkApplicationStatus{}` used when a
resubmission clears the status. -/
def emptySparkApplicationStatus : SparkApplicationStatus :=
  { appID := ""
    appState := { state := .EmptyState, errorMessage := "" }
    driverInfo := { podName := "", webUIAddress := "", webUIPort := 0 }
    executorState := none
    submissionTime := 0
    completionTime := 0 }

/-- `isAppTerminated` from controller.go. -/
def isAppTerminated (appState : ApplicationStateType) : Bool :=
  decide (appState = .CompletedState ∨ appState = .FailedState)

/-- `driverPodPhaseToApplicationState` from controller.go: the fixed
pod-phase → application-state table. -/
def driverPodPhaseToApplicationState : PodPhase → ApplicationStateType
  | .PodPending => .SubmittedState
  | .PodRunning => .RunningState
  | .PodSucceeded => .CompletedState
  | .PodFailed => .FailedState
  | .PodOther => .EmptyState

/-- `maximumUpdateRetries` from controller.go. -/
def maximumUpdateRetries : Nat := 3

/-- Kinds of errors the remote store can return.  The Go code only tests
`err != nil` and never looks at the kind; the kind is carried here so that
uniform treatment of error kinds is a provable statement. -/
inductive ErrKind
  | conflict
  | notFound
  | connectivity
  | other
  deriving DecidableEq, Repr

/-- Result of `client.Update`. -/
inductive UpdateResult
  | ok (app : SparkApplication)
  | err (k : ErrKind)
  deriving DecidableEq, Repr

/-- Result of `client.Get`. -/
inductive GetResult
  | ok (app : SparkApplication)
  | err (k : ErrKind)
  deriving DecidableEq, Repr

/-- The remote versioned-store client
(`s.crdClient.SparkoperatorV1alpha1().SparkApplications(namespace)`).
`upd n a` is the response to the n-th `Update` call of the run when its
argument is `a`; `get n ns nm` the response to the n-th `Get` call for
namespace `ns` and name `nm`.  Indexing by call number lets the store give
different answers over time (e.g. always-conflict, succeed-on-retry). -/
structure Client where
  upd : Nat → SparkApplication → UpdateResult
  get : Nat → String → String → GetResult

/-- The loop body of `updateSparkApplicationWithRetries`, instrumented with
call counters.  Arguments after the fuel: the current working copy
`toUpdate`, then the number of mutation applications, `Update` calls and
`Get` calls performed so far.  Each iteration applies the mutation to the
working copy, short-circuits when the status equals the original's
(`reflect.DeepEqual`), otherwise attempts the remote write; on any write
error it re-fetches by namespace/name and, if the fetch succeeds, retries
with the fetched record as the new working copy; a failed fetch returns nil
immediately. -/
def updateWithRetriesAux (c : Client) (updateFunc : SparkApplication → SparkApplication)
    (original : SparkApplication) :
    Nat → SparkApplication → Nat → Nat → Nat →
      Option SparkApplication × Nat × Nat × Nat
  | 0, _, nm, nu, ng => (none, nm, nu, ng)
  | n + 1, toUpdate, nm, nu, ng =>
    if original.status = (updateFunc toUpdate).status then
      (none, nm + 1, nu, ng)
    else
      match c.upd nu (updateFunc toUpdate) with
      | UpdateResult.ok updated => (some updated, nm + 1, nu + 1, ng)
      | UpdateResult.err _ =>
        match c.get ng (updateFunc toUpdate).namesp (updateFunc toUpdate).name with
        | GetResult.err _ => (none, nm + 1, nu + 1, ng + 1)
        | GetResult.ok fresh =>
          updateWithRetriesAux c updateFunc original n fresh (nm + 1) (nu + 1) (ng + 1)

/-- `updateSparkApplicationWithRetries`, with the counters exposed:
result, number of mutation applications, of `Update` calls, of `Get` calls. -/
def updateSparkApplicationWithRetriesInstr (c : Client)
    (original toUpdate : SparkApplication)
    (updateFunc : SparkApplication → SparkApplication) :
    Option SparkApplication × Nat × Nat × Nat :=
  updateWithRetriesAux c updateFunc original maximumUpdateRetries toUpdate 0 0 0

/-- `updateSparkApplicationWithRetries` from controller.go: the returned
record (`nil` = `none` on no-op, exhausted retries or failed fetch). -/
def updateSparkApplicationWithRetries (c : Client)
    (original toUpdate : SparkApplication)
    (updateFunc : SparkApplication → SparkApplication) : Option SparkApplication :=
  (updateSparkApplicationWithRetriesInstr c original toUpdate updateFunc).1

/-- `appStateUpdate`: a submission-outcome event
`{appID, state, errorMessage, submissionTime, completionTime}`. -/
structure AppStateUpdate where
  appID : String
  state : ApplicationStateType
  errorMessage : String
  submissionTime : Nat
  completionTime : Nat
  deriving DecidableEq, Repr

/-- `driverStateUpdate`: a driver-lifecycle event
`{appID, podName, nodeName, podPhase}`. -/
structure DriverStateUpdate where
  appID : String
  podName : String
  nodeName : String
  podPhase : PodPhase
  deriving DecidableEq, Repr

/-- `executorStateUpdate`: a worker-lifecycle event
`{appID, executorID, podName, state}`. -/
structure ExecutorStateUpdate where
  appID : String
  executorID : String
  podName : String
  state : ExecutorState
  deriving DecidableEq, Repr

/-- Association-list lookup, modelling read of a Go map. -/
def lookupA {β : Type} : List (String × β) → String → Option β
  | [], _ => none
  | (k0, v0) :: t, k => if k = k0 then some v0 else lookupA t k

/-- Association-list insert-or-replace, modelling Go map assignment
`m[k] = v`. -/
def insertA {β : Type} : List (String × β) → String → β → List (String × β)
  | [], k, v => [(k, v)]
  | (k0, v0) :: t, k, v => if k = k0 then (k, v) :: t else (k0, v0) :: insertA t k v

/-- Association-list erase, modelling Go `delete(m, k)`. -/
def eraseA {β : Type} : List (String × β) → String → List (String × β)
  | [], _ => []
  | (k0, v0) :: t, k => if k = k0 then eraseA t k else (k0, v0) :: eraseA t k

/-- The in-memory registry `runningApps : map[string]*v1alpha1.SparkApplication`. -/
def Registry : Type := List (String × SparkApplication)

/-- The mutation closure of `processSingleAppStateUpdate`: overwrite
`appState` with the incoming state/message unless the current state is
already terminal, except that `FailedSubmissionState` always overwrites;
set each timestamp only when the incoming one is non-zero. -/
def appStateUpdateFunc (update : AppStateUpdate) (toUpdate : SparkApplication) :
    SparkApplication :=
  let st := toUpdate.status
  let st :=
    if ¬ isAppTerminated st.appState.state = true ∨ update.state = .FailedSubmissionState then
      { st with appState := { state := update.state, errorMessage := update.errorMessage } }
    else st
  let st := if update.submissionTime ≠ 0 then { st with submissionTime := update.submissionTime } else st
  let st := if update.completionTime ≠ 0 then { st with completionTime := update.completionTime } else st
  { toUpdate with status := st }

/-- The mutation closure of `processSingleDriverStateUpdate`.  `nodeIP`
abstracts `s.getNodeExternalIP` (a cluster node-directory lookup returning
`""` on failure or when no external address exists).  Always records the
driver pod name; when the node name is non-empty and resolves to a
non-empty address, sets `webUIAddress` to `"<ip>:<port>"`; maps the pod
phase through the fixed table and assigns it to `appState.state` only when
the mapped state is terminal. -/
def driverStateUpdateFunc (nodeIP : String → String) (update : DriverStateUpdate)
    (toUpdate : SparkApplication) : SparkApplication :=
  let di := { toUpdate.status.driverInfo with podName := update.podName }
  let di :=
    if update.nodeName ≠ "" then
      let ip := nodeIP update.nodeName
      if ip ≠ "" then { di with webUIAddress := ip ++ ":" ++ toString di.webUIPort } else di
    else di
  let appState := driverPodPhaseToApplicationState update.podPhase
  let st := { toUpdate.status with driverInfo := di }
  let st :=
    if isAppTerminated appState = true then
      { st with appState := { st.appState with state := appState } }
    else st
  { toUpdate with status := st }

/-- The mutation closure of `processSingleExecutorStateUpdate`: allocate the
`executorState` map when it is nil, then record the executor's state under
its pod name unless the incoming state is `ExecutorPendingState`. -/
def executorStateUpdateFunc (update : ExecutorStateUpdate) (toUpdate : SparkApplication) :
    SparkApplication :=
  let es := match toUpdate.status.executorState with
    | none => ([] : List (String × ExecutorState))
    | some m => m
  let es' :=
    if update.state ≠ .ExecutorPendingState then insertA es update.podName update.state
    else es
  { toUpdate with status := { toUpdate.status with executorState := some es' } }

/-- `processSingleAppStateUpdate`: look the event's `appID` up in the
registry (dropping the event when absent), fold the event in through the
Status Updater, and on success re-insert the updated record under its
`appID`. -/
def processSingleAppStateUpdate (c : Client) (runningApps : Registry)
    (update : AppStateUpdate) : Registry :=
  match lookupA runningApps update.appID with
  | none => runningApps
  | some app =>
    match updateSparkApplicationWithRetries c app app (appStateUpdateFunc update) with
    | none => runningApps
    | some updated => insertA runningApps updated.status.appID updated

/-- `processSingleDriverStateUpdate`: like the submission-outcome reducer
but with the driver mutation rule; also returns the updated record (the
caller decides termination/restart from it). -/
def processSingleDriverStateUpdate (c : Client) (nodeIP : String → String)
    (runningApps : Registry) (update : DriverStateUpdate) :
    Registry × Option SparkApplication :=
  match lookupA runningApps update.appID with
  | none => (runningApps, none)
  | some app =>
    match updateSparkApplicationWithRetries c app app (driverStateUpdateFunc nodeIP update) with
    | none => (runningApps, none)
    | some updated => (insertA runningApps updated.status.appID updated, some updated)

/-- `processSingleExecutorStateUpdate`: the worker-lifecycle reducer. -/
def processSingleExecutorStateUpdate (c : Client) (runningApps : Registry)
    (update : ExecutorStateUpdate) : Registry :=
  match lookupA runningApps update.appID with
  | none => runningApps
  | some app =>
    match updateSparkApplicationWithRetries c app app (executorStateUpdateFunc update) with
    | none => runningApps
    | some updated => insertA runningApps updated.status.appID updated

/-- A record of what a submission handed to the worker pool carries:
`newSubmission(submissionCmdArgs, updatedApp)`. -/
structure Submission where
  cmdArgs : List String
  app : SparkApplication
  deriving DecidableEq, Repr

/-- The collaborators `submitApp` uses besides the store client.
`build` is `buildSubmissionCommandArgs` (not under src/): it returns the
argument list it managed to build together with a flag that is `true` when
it also returned an error — on error the Go caller still holds (and uses)
the returned argument value.  `genAppID` is `buildAppID` (its hash input
includes the current nanosecond time, so it is abstracted as an oracle).
`ui` models `createSparkUIService`.  Modelled from the spec:
`createSparkUIService` is not under src/; per §4.3 it provisions the UI
endpoint as a side effect of the same mutation (idempotent), touching only
the driver-info portion of the status. -/
structure SubmitDeps where
  client : Client
  build : SparkApplication → List String × Bool
  genAppID : SparkApplication → String
  ui : SparkApplication → DriverInfo

/-- The mutation closure of `submitApp`: clear the status on resubmission,
compute and assign the `appID`, set the state to `NewState`, and provision
the UI service. -/
def submitUpdateFunc (d : SubmitDeps) (resubmission : Bool)
    (toUpdate : SparkApplication) : SparkApplication :=
  let toUpdate :=
    if resubmission then { toUpdate with status := emptySparkApplicationStatus } else toUpdate
  let toUpdate := { toUpdate with status := { toUpdate.status with appID := d.genAppID toUpdate } }
  let toUpdate :=
    { toUpdate with status :=
        { toUpdate.status with appState := { toUpdate.status.appState with state := .NewState } } }
  { toUpdate with status := { toUpdate.status with driverInfo := d.ui toUpdate } }

/-- `submitApp`: persist the submission mutation through the Status Updater;
on failure/no-op abandon the dispatch (registry untouched, nothing
submitted).  On success insert the persisted record under its `appID`,
build the submission command arguments (a build error is only logged), and
— unless the record is flagged `SubmissionByUser` — hand a submission built
from those arguments to the worker pool.  Returns the new registry and the
list of submissions handed to the pool. -/
def submitApp (d : SubmitDeps) (runningApps : Registry)
    (app : SparkApplication) (resubmission : Bool) : Registry × List Submission :=
  match updateSparkApplicationWithRetries d.client app app (submitUpdateFunc d resubmission) with
  | none => (runningApps, [])
  | some updatedApp =>
    let r := insertA runningApps updatedApp.status.appID updatedApp
    let submissionCmdArgs := (d.build updatedApp).1
    if updatedApp.spec.submissionByUser = false then
      (r, [{ cmdArgs := submissionCmdArgs, app := updatedApp }])
    else (r, [])

/-- The key under which `submitApp` inserts into the registry, when it
inserts at all (the persisted record's `appID`). -/
def submitAppKey (d : SubmitDeps) (app : SparkApplication) (resubmission : Bool) :
    Option String :=
  (updateSparkApplicationWithRetries d.client app app (submitUpdateFunc d resubmission)).map
    (fun u => u.status.appID)

/-- `onDelete`: remove the deleted record's `Status.AppID` from the
registry. -/
def onDelete (runningApps : Registry) (app : SparkApplication) : Registry :=
  eraseA runningApps app.status.appID

/-- `handleRestart`: no restart under `Never`/`Undefined`; re-submit with
status-clearing when the policy is `Always`, or `OnFailure` with a `Failed`
state.  `some` carries the `submitApp` outcome when the dispatcher's create
path was invoked (with the resubmission flag set), `none` means it was not
invoked. -/
def handleRestart (d : SubmitDeps) (runningApps : Registry)
    (app : SparkApplication) : Option (Registry × List Submission) :=
  if app.spec.restartPolicy = .Never ∨ app.spec.restartPolicy = .Undefined then none
  else if (app.status.appState.state = .FailedState ∧ app.spec.restartPolicy = .OnFailure)
      ∨ app.spec.restartPolicy = .Always then
    some (submitApp d runningApps app true)
  else none

/-! Concrete instances used to exercise the theorems on closed inputs. -/

/-- A concrete application: fresh record, nil executor map, terminal-free. -/
def app0 : SparkApplication :=
  { name := "sparkpi", namesp := "default", uid := "u1"
    spec := { restartPolicy := .Never, submissionByUser := false }
    status := emptySparkApplicationStatus }

/-- `app0` with a terminal `Completed` state. -/
def appCompleted : SparkApplication :=
  { app0 with status :=
      { app0.status with appState := { state := .CompletedState, errorMessage := "" } } }

/-- `app0` with a terminal `Failed` state. -/
def appFailed : SparkApplication :=
  { app0 with status :=
      { app0.status with appState := { state := .FailedState, errorMessage := "oom" } } }

/-- A mutation that always moves the state to `Running` (so the no-op
short circuit never fires on `app0`-statused records). -/
def fRun (a : SparkApplication) : SparkApplication :=
  { a with status := { a.status with appState := { a.status.appState with state := .RunningState } } }

/-- A store whose `Update` always reports a version conflict and whose
`Get` always succeeds. -/
def cConflict : Client :=
  { upd := fun _ _ => .err .conflict, get := fun _ _ _ => .ok app0 }

/-- A store whose calls all succeed, echoing the written record. -/
def cEcho : Client :=
  { upd := fun _ a => .ok a, get := fun _ _ _ => .ok app0 }

/-- Like `cConflict` but with non-conflict error kinds, and failing `Get`. -/
def cBroken : Client :=
  { upd := fun _ _ => .err .connectivity, get := fun _ _ _ => .err .notFound }

/-- A pending worker-lifecycle event for a never-seen pod. -/
def uPend : ExecutorStateUpdate :=
  { appID := "sparkpi-1", executorID := "1", podName := "exec-1", state := .ExecutorPendingState }

/-- `app0` with an allocated executor map holding one running executor. -/
def appExecs : SparkApplication :=
  { app0 with status :=
      { app0.status with executorState := some [("exec-0", .ExecutorRunningState)] } }

/-- `appFailed` with restart policy `OnFailure`. -/
def appFailedOnFailure : SparkApplication :=
  { appFailed with spec := { appFailed.spec with restartPolicy := .OnFailure } }

/-- A completed record registered under the `appID` of its first
submission, about to be restarted. -/
def appOld : SparkApplication :=
  { app0 with
    spec := { app0.spec with restartPolicy := .Always }
    status := { app0.status with
      appID := "sparkpi-old"
      appState := { state := .CompletedState, errorMessage := "" } } }

/-- Dispatcher collaborators whose submission-command build always fails
(returning an empty argument list alongside the error), over the echoing
store. -/
def dFailBuild : SubmitDeps :=
  { client := cEcho
    build := fun _ => ([], true)
    genAppID := fun _ => "sparkpi-new"
    ui := fun a => a.status.driverInfo }

/-- Dispatcher collaborators with a successful build, over the echoing
store. -/
def dOk : SubmitDeps :=
  { client := cEcho
    build := fun _ => (["--class", "SparkPi"], false)
    genAppID := fun _ => "sparkpi-new"
    ui := fun a => a.status.driverInfo }

/-- Two stores have the same shape when every call they answer succeeds on
one iff it succeeds on the other with the same record, while error answers
may differ in kind.  The Go code only ever tests `err != nil`, so its
behaviour should be a function of the shape alone. -/
def sameShape (c1 c2 : Client) : Prop :=
  (∀ n a, c1.upd n a = c2.upd n a ∨
    ∃ k1 k2, c1.upd n a = .err k1 ∧ c2.upd n a = .err k2) ∧
  (∀ n ns nm, c1.get n ns nm = c2.get n ns nm ∨
    ∃ k1 k2, c1.get n ns nm = .err k1 ∧ c2.get n ns nm = .err k2)

end SparkOperator

namespace SparkOperator

/-! Helper lemmas about the association-list operations. -/

theorem lookupA_insertA {β : Type} (l : List (String × β)) (k k' : String) (v : β) :
    lookupA (insertA l k v) k' = if k' = k then some v else lookupA l k' := by
  induction l with
  | nil => simp [insertA, lookupA]
  | cons h t ih =>
    obtain ⟨k0, v0⟩ := h
    by_cases hk : k = k0
    · subst hk
      by_cases hk' : k' = k <;> simp [insertA, lookupA, hk']
    · by_cases hk' : k' = k0
      · subst hk'
        simp [insertA, lookupA, hk, Ne.symm hk]
      · simp [insertA, lookupA, hk, hk', ih]

theorem lookupA_eraseA {β : Type} (l : List (String × β)) (k k' : String) :
    lookupA (eraseA l k) k' = if k' = k then none else lookupA l k' := by
  induction l with
  | nil => simp [eraseA, lookupA]
  | cons h t ih =>
    obtain ⟨k0, v0⟩ := h
    by_cases hk : k = k0
    · subst hk
      by_cases hk' : k' = k
      · subst hk'
        simp [eraseA, ih]
      · simp [eraseA, lookupA, hk', ih]
    · by_cases hk' : k' = k0
      · subst hk'
        simp [eraseA, lookupA, hk, Ne.symm hk, ih]
      · simp [eraseA, lookupA, hk, hk', ih]

theorem insertA_idem {β : Type} (l : List (String × β)) (k : String) (v : β) :
    insertA (insertA l k v) k v = insertA l k v := by
  induction l with
  | nil => simp [insertA]
  | cons h t ih =>
    obtain ⟨k0, v0⟩ := h
    by_cases hk : k = k0
    · subst hk
      simp [insertA]
    · simp [insertA, hk, ih]

/-- Claim C6: if applying the mutation to the working copy yields a status
equal to the original record's status, the Status Updater performs no
remote write call (and no fetch) and returns nil, the "no update" result,
after the single mutation application. -/
theorem noopShortCircuit (c : Client) (original toUpdate : SparkApplication)
    (updateFunc : SparkApplication → SparkApplication)
    (h : original.status = (updateFunc toUpdate).status) :
    updateSparkApplicationWithRetriesInstr c original toUpdate updateFunc =
      (none, 1, 0, 0) := by
  simp [updateSparkApplicationWithRetriesInstr, maximumUpdateRetries,
    updateWithRetriesAux, if_pos h]

/-- Witness for C6: a mutation that leaves `app0`'s status unchanged leads
to zero `Update` calls and a nil result. -/
theorem noopShortCircuitWitness :
    updateSparkApplicationWithRetriesInstr cConflict app0 app0 (fun a => a) =
      (none, 1, 0, 0) :=
  noopShortCircuit cConflict app0 app0 (fun a => a) rfl

/-- Claim C1, amended: under a store whose every `Update` call errs (in
particular when every error is a version conflict) and whose every `Get`
succeeds, and a mutation that always changes the status, the Status Updater
performs exactly 3 mutate/write cycles and exactly 3 re-fetches (the last
fetched record is never used) and returns nil. -/
theorem updateRetryBound (c : Client) (original toUpdate : SparkApplication)
    (updateFunc : SparkApplication → SparkApplication)
    (hupd : ∀ n a, ∃ k, c.upd n a = UpdateResult.err k)
    (hget : ∀ n ns nm, ∃ a, c.get n ns nm = GetResult.ok a)
    (hch : ∀ a, ¬ original.status = (updateFunc a).status) :
    updateSparkApplicationWithRetriesInstr c original toUpdate updateFunc =
      (none, 3, 3, 3) := by
  obtain ⟨k0, hk0⟩ := hupd 0 (updateFunc toUpdate)
  obtain ⟨a1, ha1⟩ := hget 0 (updateFunc toUpdate).namesp (updateFunc toUpdate).name
  obtain ⟨k1, hk1⟩ := hupd 1 (updateFunc a1)
  obtain ⟨a2, ha2⟩ := hget 1 (updateFunc a1).namesp (updateFunc a1).name
  obtain ⟨k2, hk2⟩ := hupd 2 (updateFunc a2)
  obtain ⟨a3, ha3⟩ := hget 2 (updateFunc a2).namesp (updateFunc a2).name
  simp [updateSparkApplicationWithRetriesInstr, maximumUpdateRetries,
    updateWithRetriesAux, hch, hk0, ha1, hk1, ha2, hk2, ha3]

/-- Witness for C1 (amended): the always-conflicting store with succeeding
fetches yields nil after 3 mutate/write cycles and 3 fetches. -/
theorem updateRetryBoundWitness :
    updateSparkApplicationWithRetriesInstr cConflict app0 app0 fRun =
      (none, 3, 3, 3) :=
  updateRetryBound cConflict app0 app0 fRun
    (fun _ _ => ⟨.conflict, rfl⟩)
    (fun _ _ _ => ⟨app0, rfl⟩)
    (fun a => by
      cases a with
      | mk nm ns uid sp st =>
        cases st with
        | mk aid as di es t1 t2 => simp [fRun, app0, emptySparkApplicationStatus])

/-- Counterexample for C1 as stated: under an always-conflicting store with
succeeding fetches, the number of re-fetches is 3, not 2. -/
theorem updateRetryBoundCounterexample :
    updateSparkApplicationWithRetriesInstr cConflict app0 app0 fRun = (none, 3, 3, 3) ∧
    (updateSparkApplicationWithRetriesInstr cConflict app0 app0 fRun).2.2.2 ≠ 2 := by
  constructor
  · rfl
  · decide

/-- Helper: the retry loop's behaviour, counters included, depends only on
the shape of the store's answers, never on the kind of an error. -/
theorem updateWithRetriesAux_shape (c1 c2 : Client)
    (updateFunc : SparkApplication → SparkApplication)
    (original : SparkApplication) (h : sameShape c1 c2) :
    ∀ (fuel : Nat) (toUpdate : SparkApplication) (nm nu ng : Nat),
      updateWithRetriesAux c1 updateFunc original fuel toUpdate nm nu ng =
      updateWithRetriesAux c2 updateFunc original fuel toUpdate nm nu ng := by
  intro fuel
  induction fuel with
  | zero => intro toUpdate nm nu ng; rfl
  | succ n ih =>
    intro toUpdate nm nu ng
    by_cases hst : original.status = (updateFunc toUpdate).status
    · simp [updateWithRetriesAux, if_pos hst]
    · rcases h.1 nu (updateFunc toUpdate) with hequ | ⟨k1, k2, hek1, hek2⟩
      · rcases hcu : c2.upd nu (updateFunc toUpdate) with updated | k
        · simp [updateWithRetriesAux, if_neg hst, hequ, hcu]
        · rcases h.2 ng (updateFunc toUpdate).namesp (updateFunc toUpdate).name with
            heqg | ⟨j1, j2, heg1, heg2⟩
          · rcases hcg : c2.get ng (updateFunc toUpdate).namesp (updateFunc toUpdate).name with
              fresh | j
            · simp [updateWithRetriesAux, if_neg hst, hequ, hcu, heqg, hcg, ih]
            · simp [updateWithRetriesAux, if_neg hst, hequ, hcu, heqg, hcg]
          · simp [updateWithRetriesAux, if_neg hst, hequ, hcu, heg1, heg2]
      · rcases h.2 ng (updateFunc toUpdate).namesp (updateFunc toUpdate).name with
          heqg | ⟨j1, j2, heg1, heg2⟩
        · rcases hcg : c2.get ng (updateFunc toUpdate).namesp (updateFunc toUpdate).name with
            fresh | j
          · simp [updateWithRetriesAux, if_neg hst, hek1, hek2, heqg, hcg, ih]
          · simp [updateWithRetriesAux, if_neg hst, hek1, hek2, heqg, hcg]
        · simp [updateWithRetriesAux, if_neg hst, hek1, hek2, heg1, heg2]

/-- Claim C9: every error from the remote update call is treated alike.
Part 1: the whole retry computation (result and all call counts) is
invariant under changing the kinds of the store's errors.  Part 2: after a
failed write, whatever the error kind, the working copy is discarded and
the cycle is retried on the record fetched by namespace/name.  Part 3: when
the re-fetch fails, whatever its error kind and however many retries
remain, the loop returns nil at once — the fetch is never retried. -/
theorem errorHandlingUniform :
    (∀ c1 c2 : Client, sameShape c1 c2 →
      ∀ (original toUpdate : SparkApplication)
        (updateFunc : SparkApplication → SparkApplication),
        updateSparkApplicationWithRetriesInstr c1 original toUpdate updateFunc =
        updateSparkApplicationWithRetriesInstr c2 original toUpdate updateFunc)
  ∧ (∀ (c : Client) (updateFunc : SparkApplication → SparkApplication)
       (original : SparkApplication) (fuel : Nat) (toUpdate : SparkApplication)
       (nm nu ng : Nat) (k : ErrKind) (fresh : SparkApplication),
       ¬ original.status = (updateFunc toUpdate).status →
       c.upd nu (updateFunc toUpdate) = .err k →
       c.get ng (updateFunc toUpdate).namesp (updateFunc toUpdate).name = .ok fresh →
       updateWithRetriesAux c updateFunc original (fuel + 1) toUpdate nm nu ng =
         updateWithRetriesAux c updateFunc original fuel fresh (nm + 1) (nu + 1) (ng + 1))
  ∧ (∀ (c : Client) (updateFunc : SparkApplication → SparkApplication)
       (original : SparkApplication) (fuel : Nat) (toUpdate : SparkApplication)
       (nm nu ng : Nat) (k j : ErrKind),
       ¬ original.status = (updateFunc toUpdate).status →
       c.upd nu (updateFunc toUpdate) = .err k →
       c.get ng (updateFunc toUpdate).namesp (updateFunc toUpdate).name = .err j →
       updateWithRetriesAux c updateFunc original (fuel + 1) toUpdate nm nu ng =
         (none, nm + 1, nu + 1, ng + 1)) := by
  refine ⟨?_, ?_, ?_⟩
  · intro c1 c2 h original toUpdate updateFunc
    simp [updateSparkApplicationWithRetriesInstr,
      updateWithRetriesAux_shape c1 c2 updateFunc original h]
  · intro c updateFunc original fuel toUpdate nm nu ng k fresh hst hu hg
    simp [updateWithRetriesAux, if_neg hst, hu, hg]
  · intro c updateFunc original fuel toUpdate nm nu ng k j hst hu hg
    simp [updateWithRetriesAux, if_neg hst, hu, hg]

/-- Witness for C9: a store erring with non-conflict kinds (a connectivity
error on write, a not-found error on fetch) takes the same abort path; part
3 applied with 9 retries remaining still returns at once after one write
and one fetch. -/
theorem errorHandlingUniformWitness :
    updateWithRetriesAux cBroken fRun app0 10 app0 0 0 0 = (none, 1, 1, 1) :=
  errorHandlingUniform.2.2 cBroken fRun app0 9 app0 0 0 0 .connectivity .notFound
    (by decide) rfl rfl

/-- Helper: against a store whose writes always succeed and echo the
written record, the Status Updater is the one-shot mutate-compare-write. -/
theorem update_echo (c : Client) (hecho : ∀ n x, c.upd n x = UpdateResult.ok x)
    (original toUpdate : SparkApplication)
    (updateFunc : SparkApplication → SparkApplication) :
    updateSparkApplicationWithRetries c original toUpdate updateFunc =
      if original.status = (updateFunc toUpdate).status then none
      else some (updateFunc toUpdate) := by
  by_cases h : original.status = (updateFunc toUpdate).status <;>
    simp [updateSparkApplicationWithRetries, updateSparkApplicationWithRetriesInstr,
      maximumUpdateRetries, updateWithRetriesAux, h, hecho]

/-- Helper: the worker-lifecycle mutation never touches the `appID`. -/
theorem executorStateUpdateFunc_appID (u : ExecutorStateUpdate) (a : SparkApplication) :
    (executorStateUpdateFunc u a).status.appID = a.status.appID := rfl

/-- Helper: the submission-outcome mutation never touches the `appID`. -/
theorem appStateUpdateFunc_appID (u : AppStateUpdate) (a : SparkApplication) :
    (appStateUpdateFunc u a).status.appID = a.status.appID := by
  simp only [appStateUpdateFunc]
  split_ifs <;> rfl

/-- Helper: the worker-lifecycle mutation never touches `appState`. -/
theorem executorStateUpdateFunc_appState (u : ExecutorStateUpdate) (a : SparkApplication) :
    (executorStateUpdateFunc u a).status.appState = a.status.appState := rfl

/-- Helper: on a record in a terminal state, the submission-outcome
mutation leaves the state unchanged unless the incoming state is
`FailedSubmission`, which always overwrites. -/
theorem appStateUpdateFunc_terminal (u : AppStateUpdate) (a : SparkApplication)
    (hterm : isAppTerminated a.status.appState.state = true) :
    (appStateUpdateFunc u a).status.appState.state =
      if u.state = ApplicationStateType.FailedSubmissionState then
        ApplicationStateType.FailedSubmissionState
      else a.status.appState.state := by
  by_cases hu : u.state = ApplicationStateType.FailedSubmissionState
  · simp only [appStateUpdateFunc, hterm]
    split_ifs <;> simp_all
  · simp only [appStateUpdateFunc, hterm]
    split_ifs <;> simp_all

/-- Claim C2: once a record's `appState.state` is terminal (`Completed` or
`Failed`), a worker-lifecycle event leaves the state unchanged, and a
submission-outcome event leaves it unchanged unless the incoming state is
`FailedSubmission`, which overrides even a terminal state.  Stated for the
reducers' mutation rules (parts 1 and 2) and for the full reducers over the
registry when the store accepts the write (parts 3 and 4, against an
echoing store; `processSingle...` drops the event or keeps the registry
entry intact in every other case). -/
theorem terminalStateMonotonic (a : SparkApplication)
    (hterm : isAppTerminated a.status.appState.state = true) :
    (∀ u : ExecutorStateUpdate,
       (executorStateUpdateFunc u a).status.appState.state = a.status.appState.state)
  ∧ (∀ u : AppStateUpdate,
       (appStateUpdateFunc u a).status.appState.state =
         if u.state = ApplicationStateType.FailedSubmissionState then
           ApplicationStateType.FailedSubmissionState
         else a.status.appState.state)
  ∧ (∀ (c : Client) (r : Registry) (u : ExecutorStateUpdate),
       (∀ n x, c.upd n x = UpdateResult.ok x) →
       lookupA r u.appID = some a →
       a.status.appID = u.appID →
       Option.map (fun x => x.status.appState.state)
           (lookupA (processSingleExecutorStateUpdate c r u) u.appID) =
         some a.status.appState.state)
  ∧ (∀ (c : Client) (r : Registry) (u : AppStateUpdate),
       (∀ n x, c.upd n x = UpdateResult.ok x) →
       lookupA r u.appID = some a →
       a.status.appID = u.appID →
       Option.map (fun x => x.status.appState.state)
           (lookupA (processSingleAppStateUpdate c r u) u.appID) =
         some (if u.state = ApplicationStateType.FailedSubmissionState then
             ApplicationStateType.FailedSubmissionState
           else a.status.appState.state)) := by
  refine ⟨?_, ?_, ?_, ?_⟩
  · intro u
    exact congrArg ApplicationState.state (executorStateUpdateFunc_appState u a)
  · intro u
    exact appStateUpdateFunc_terminal u a hterm
  · intro c r u hecho hlook hid
    simp only [processSingleExecutorStateUpdate, hlook, update_echo c hecho]
    by_cases hst : a.status = (executorStateUpdateFunc u a).status
    · simp [hst, hlook]
    · simp only [if_neg hst]
      rw [executorStateUpdateFunc_appID, hid, lookupA_insertA]
      simp [executorStateUpdateFunc_appState]
  · intro c r u hecho hlook hid
    simp only [processSingleAppStateUpdate, hlook, update_echo c hecho]
    by_cases hst : a.status = (appStateUpdateFunc u a).status
    · have hstate :
          (if u.state = ApplicationStateType.FailedSubmissionState then
            ApplicationStateType.FailedSubmissionState
          else a.status.appState.state) = a.status.appState.state := by
        rw [← appStateUpdateFunc_terminal u a hterm, ← hst]
      rw [if_pos hst]
      show Option.map (fun x => x.status.appState.state) (lookupA r u.appID) =
        some (if u.state = ApplicationStateType.FailedSubmissionState then
          ApplicationStateType.FailedSubmissionState else a.status.appState.state)
      rw [hlook, hstate]
      rfl
    · simp only [if_neg hst]
      rw [appStateUpdateFunc_appID, hid, lookupA_insertA]
      simp [appStateUpdateFunc_terminal u a hterm]

/-- Witness for C2: the `FailedSubmission` override over an already
`Completed` record, and a worker event leaving a `Failed` record's state
untouched. -/
theorem terminalStateMonotonicWitness :
    (appStateUpdateFunc
        { appID := "sparkpi-1", state := .FailedSubmissionState, errorMessage := "bad"
          submissionTime := 0, completionTime := 0 }
        appCompleted).status.appState.state = ApplicationStateType.FailedSubmissionState ∧
    (executorStateUpdateFunc uPend appFailed).status.appState.state =
      ApplicationStateType.FailedState := by
  constructor
  · rw [(terminalStateMonotonic appCompleted (by decide)).2.1]
    decide
  · rw [(terminalStateMonotonic appFailed (by decide)).1 uPend]
    decide

/-- Claim C7: the driver-lifecycle reducer maps the pod phase through the
fixed table pending→Submitted, running→Running, succeeded→Completed,
failed→Failed, anything else→empty, and assigns the mapped state to
`appState.state` exactly when the mapped state is terminal; otherwise the
state is left unchanged. -/
theorem driverPhaseMapping :
    (driverPodPhaseToApplicationState .PodPending = .SubmittedState
      ∧ driverPodPhaseToApplicationState .PodRunning = .RunningState
      ∧ driverPodPhaseToApplicationState .PodSucceeded = .CompletedState
      ∧ driverPodPhaseToApplicationState .PodFailed = .FailedState
      ∧ driverPodPhaseToApplicationState .PodOther = .EmptyState)
  ∧ ∀ (nodeIP : String → String) (u : DriverStateUpdate) (a : SparkApplication),
      (driverStateUpdateFunc nodeIP u a).status.appState.state =
        if isAppTerminated (driverPodPhaseToApplicationState u.podPhase) = true then
          driverPodPhaseToApplicationState u.podPhase
        else a.status.appState.state := by
  refine ⟨⟨rfl, rfl, rfl, rfl, rfl⟩, ?_⟩
  intro nodeIP u a
  simp only [driverStateUpdateFunc]
  split_ifs <;> rfl

/-- Claim C8: the mutation function of each of the three reducers is
idempotent on the status: applying it twice to the same working copy
yields the status of applying it once. -/
theorem mutationIdempotent :
    (∀ (u : AppStateUpdate) (a : SparkApplication),
       (appStateUpdateFunc u (appStateUpdateFunc u a)).status =
         (appStateUpdateFunc u a).status)
  ∧ (∀ (nodeIP : String → String) (u : DriverStateUpdate) (a : SparkApplication),
       (driverStateUpdateFunc nodeIP u (driverStateUpdateFunc nodeIP u a)).status =
         (driverStateUpdateFunc nodeIP u a).status)
  ∧ (∀ (u : ExecutorStateUpdate) (a : SparkApplication),
       (executorStateUpdateFunc u (executorStateUpdateFunc u a)).status =
         (executorStateUpdateFunc u a).status) := by
  refine ⟨?_, ?_, ?_⟩
  · intro u a
    obtain ⟨nm, ns, uid, sp, ⟨aid, ⟨st, em⟩, di, es, t1, t2⟩⟩ := a
    simp only [appStateUpdateFunc]
    split_ifs <;> simp_all
  · intro nodeIP u a
    obtain ⟨nm, ns, uid, sp, ⟨aid, ⟨st, em⟩, ⟨pn, wa, wp⟩, es, t1, t2⟩⟩ := a
    simp only [driverStateUpdateFunc]
    split_ifs <;> simp_all
  · intro u a
    by_cases hp : u.state = ExecutorState.ExecutorPendingState <;>
      simp [executorStateUpdateFunc, hp, insertA_idem]

/-- Claim C5, amended: a worker-lifecycle event with state `Pending`
creates no entry for the pod and leaves the entries of `executorState`
unchanged; when the map is already allocated it is left untouched, but a
nil map is replaced by an allocated empty map (a status change that the
comparison with the original does see). -/
theorem pendingExecutorNoEntry (u : ExecutorStateUpdate) (a : SparkApplication)
    (h : u.state = ExecutorState.ExecutorPendingState) :
    (∀ k, lookupA (((executorStateUpdateFunc u a).status.executorState).getD []) k =
        lookupA ((a.status.executorState).getD []) k)
  ∧ (∀ m, a.status.executorState = some m →
      (executorStateUpdateFunc u a).status.executorState = some m) := by
  constructor
  · intro k
    cases hes : a.status.executorState <;> simp [executorStateUpdateFunc, h, hes]
  · intro m hm
    simp [executorStateUpdateFunc, h, hm]

/-- Witness for C5 (amended): a pending event for the never-seen pod
`exec-1` leaves an allocated one-entry executor map untouched. -/
theorem pendingExecutorNoEntryWitness :
    (executorStateUpdateFunc uPend appExecs).status.executorState =
      some [("exec-0", ExecutorState.ExecutorRunningState)] :=
  (pendingExecutorNoEntry uPend appExecs rfl).2
    [("exec-0", ExecutorState.ExecutorRunningState)] rfl

/-- Counterexample for C5 as stated: on a record whose executor map is
still nil, the pending event does change `executorState` (nil becomes an
allocated empty map), even though no entry is created. -/
theorem pendingExecutorCounterexample :
    uPend.state = ExecutorState.ExecutorPendingState ∧
    (executorStateUpdateFunc uPend app0).status.executorState ≠
      app0.status.executorState := by
  constructor
  · rfl
  · decide

/-- Claim C4: for a record in a terminal state, `handleRestart` invokes the
dispatcher's create path with the clear-status flag iff the restart policy
is `Always`, or it is `OnFailure` and the state is `Failed`; under `Never`
and `Undefined` it never does. -/
theorem restartEligibility (d : SubmitDeps) (r : Registry) (app : SparkApplication)
    (hterm : isAppTerminated app.status.appState.state = true) :
    (handleRestart d r app).isSome = true ↔
      (app.spec.restartPolicy = RestartPolicy.Always ∨
        (app.spec.restartPolicy = RestartPolicy.OnFailure ∧
          app.status.appState.state = ApplicationStateType.FailedState)) := by
  obtain ⟨nm, ns, uid, ⟨pol, byu⟩, ⟨aid, ⟨st, em⟩, di, es, t1, t2⟩⟩ := app
  cases pol <;> cases st <;> simp_all [handleRestart, isAppTerminated]

/-- Witness for C4: a `Failed` record with policy `OnFailure` triggers the
resubmission path. -/
theorem restartEligibilityWitness :
    (handleRestart dOk [] appFailedOnFailure).isSome = true :=
  (restartEligibility dOk [] appFailedOnFailure (by decide)).mpr
    (Or.inr ⟨rfl, rfl⟩)

/-- Helper: against a store whose successful writes echo the written
record, any record the Status Updater returns is the mutation function's
image of some working copy. -/
theorem updateWithRetriesAux_ok_image (c : Client)
    (updateFunc : SparkApplication → SparkApplication) (original : SparkApplication)
    (hecho : ∀ n a x, c.upd n a = UpdateResult.ok x → x = a) :
    ∀ (fuel : Nat) (toUpdate : SparkApplication) (nm nu ng : Nat)
      (u : SparkApplication),
      (updateWithRetriesAux c updateFunc original fuel toUpdate nm nu ng).1 = some u →
      ∃ x, u = updateFunc x := by
  intro fuel
  induction fuel with
  | zero =>
    intro toUpdate nm nu ng u h
    simp [updateWithRetriesAux] at h
  | succ n ih =>
    intro toUpdate nm nu ng u h
    by_cases hst : original.status = (updateFunc toUpdate).status
    · simp [updateWithRetriesAux, hst] at h
    · rcases hu : c.upd nu (updateFunc toUpdate) with updated | k
      · have hux := hecho nu (updateFunc toUpdate) updated hu
        simp only [updateWithRetriesAux, if_neg hst, hu] at h
        refine ⟨toUpdate, ?_⟩
        simp only [Option.some.injEq] at h
        rw [← h, hux]
      · rcases hg : c.get ng (updateFunc toUpdate).namesp (updateFunc toUpdate).name with
          fresh | j
        · simp only [updateWithRetriesAux, if_neg hst, hu, hg] at h
          exact ih fresh _ _ _ u h
        · simp [updateWithRetriesAux, hst, hu, hg] at h

/-- Helper: the dispatcher's mutation always leaves the record in state
`New`. -/
theorem submitUpdateFunc_state (d : SubmitDeps) (resubmission : Bool)
    (x : SparkApplication) :
    (submitUpdateFunc d resubmission x).status.appState.state =
      ApplicationStateType.NewState := rfl

/-- Claim C3, amended: when the submission-command build fails for a
successfully persisted and registered application, the error is only
logged: the registry insertion is not rolled back and the application
remains registered in state `New`; but a submission request carrying the
partially built arguments is still handed to the submission worker pool
(unless the record is flagged as submitted by the user). -/
theorem submitBuildFailureBehavior (d : SubmitDeps) (r : Registry)
    (app : SparkApplication) (resubmission : Bool) (updatedApp : SparkApplication)
    (hecho : ∀ n a x, d.client.upd n a = UpdateResult.ok x → x = a)
    (hupd : updateSparkApplicationWithRetries d.client app app
        (submitUpdateFunc d resubmission) = some updatedApp)
    (hbuild : (d.build updatedApp).2 = true)
    (hbyu : updatedApp.spec.submissionByUser = false) :
    lookupA (submitApp d r app resubmission).1 updatedApp.status.appID = some updatedApp
  ∧ updatedApp.status.appState.state = ApplicationStateType.NewState
  ∧ (submitApp d r app resubmission).2 =
      [{ cmdArgs := (d.build updatedApp).1, app := updatedApp }] := by
  obtain ⟨x, hx⟩ := updateWithRetriesAux_ok_image d.client
    (submitUpdateFunc d resubmission) app hecho maximumUpdateRetries app 0 0 0
    updatedApp hupd
  refine ⟨?_, ?_, ?_⟩
  · simp [submitApp, hupd, hbyu, lookupA_insertA]
  · rw [hx]
    exact submitUpdateFunc_state d resubmission x
  · simp [submitApp, hupd, hbyu]

/-- Witness for C3 (amended): with a failing build over the echoing store,
the app stays registered in state New and one submission (with the empty
argument list the failed build returned) is still handed off. -/
theorem submitBuildFailureWitness :
    lookupA (submitApp dFailBuild [] app0 false).1
        (submitUpdateFunc dFailBuild false app0).status.appID =
      some (submitUpdateFunc dFailBuild false app0)
  ∧ (submitUpdateFunc dFailBuild false app0).status.appState.state =
      ApplicationStateType.NewState
  ∧ (submitApp dFailBuild [] app0 false).2 =
      [{ cmdArgs := (dFailBuild.build (submitUpdateFunc dFailBuild false app0)).1,
         app := submitUpdateFunc dFailBuild false app0 }] :=
  submitBuildFailureBehavior dFailBuild [] app0 false
    (submitUpdateFunc dFailBuild false app0)
    (fun n a x h => by simpa [dFailBuild, cEcho] using h.symm)
    (by decide) rfl rfl

/-- Counterexample for C3 as stated: the build fails for the persisted
record, yet a submission request is handed to the worker pool anyway (the
code logs the build error and falls through to `runner.submit`). -/
theorem submitBuildFailureCounterexample :
    (dFailBuild.build (submitUpdateFunc dFailBuild false app0)).2 = true ∧
    (submitApp dFailBuild [] app0 false).2 ≠ [] := by
  constructor
  · rfl
  · decide

/-- Claim C10: `submitApp` touches no registry key other than the one it
inserts (the persisted record's freshly computed `appID`); `onDelete`
removes exactly the single `appID` carried by the deleted record's status;
hence after a restart that assigned a new `appID`, the registry holds both
the stale entry under the old `appID` and the new entry under the new one. -/
theorem registryRestartFrame :
    (∀ (d : SubmitDeps) (r : Registry) (app : SparkApplication) (rs : Bool) (k : String),
       ¬ some k = submitAppKey d app rs →
       lookupA (submitApp d r app rs).1 k = lookupA r k)
  ∧ (∀ (r : Registry) (app : SparkApplication) (k : String),
       lookupA (onDelete r app) k =
         if k = app.status.appID then none else lookupA r k)
  ∧ (∀ (d : SubmitDeps) (r : Registry) (oldApp newApp : SparkApplication),
       lookupA r oldApp.status.appID = some oldApp →
       updateSparkApplicationWithRetries d.client oldApp oldApp (submitUpdateFunc d true) =
         some newApp →
       ¬ newApp.status.appID = oldApp.status.appID →
       lookupA (submitApp d r oldApp true).1 oldApp.status.appID = some oldApp ∧
       lookupA (submitApp d r oldApp true).1 newApp.status.appID = some newApp) := by
  refine ⟨?_, ?_, ?_⟩
  · intro d r app rs k hk
    rcases hres : updateSparkApplicationWithRetries d.client app app (submitUpdateFunc d rs)
      with _ | u
    · simp [submitApp, hres]
    · simp only [submitAppKey, hres, Option.map, Option.some.injEq] at hk
      by_cases hbyu : u.spec.submissionByUser = false <;>
        simp [submitApp, hres, hbyu, lookupA_insertA, hk]
  · intro r app k
    exact lookupA_eraseA r app.status.appID k
  · intro d r oldApp newApp hlook hupd hne
    by_cases hbyu : newApp.spec.submissionByUser = false <;>
      constructor <;>
        simp [submitApp, hupd, hbyu, lookupA_insertA, hne, Ne.symm, hlook]

/-- Witness for C10: restarting the completed `appOld` (registered under
"sparkpi-old") inserts the resubmitted record under "sparkpi-new" while the
stale entry remains. -/
theorem registryRestartFrameWitness :
    lookupA (submitApp dOk [("sparkpi-old", appOld)] appOld true).1
        appOld.status.appID = some appOld
  ∧ lookupA (submitApp dOk [("sparkpi-old", appOld)] appOld true).1
        (submitUpdateFunc dOk true appOld).status.appID =
      some (submitUpdateFunc dOk true appOld) :=
  registryRestartFrame.2.2 dOk [("sparkpi-old", appOld)] appOld
    (submitUpdateFunc dOk true appOld) (by decide) (by decide) (by decide)

end SparkOperator
